import Mathlib

/-!
Shallow embedding of the request admission control layer of the in2qr
repository (source file `src/lib/ddosProtection.ts`), together with proofs
about the claims of its specification.

Modelling conventions:
* JavaScript millisecond timestamps (`Date.now()`) are `Int`.
* The durable store (the supabase tables `request_logs`, `ip_blacklist`,
  `security_events`) is an explicit record of row lists; each supabase query
  is a pure function over it.
* The module-level mutable caches (`requestCache`, `blacklistCache`,
  `violationCache`, `lastCleanup`) are an explicit `EngineState` record,
  threaded through every operation; the per-identity maps are total
  functions with the JavaScript default (`[]`, absent, `0`) as value for
  missing keys.
* Fallible durable-store calls are driven by a `FaultModel` flag per call
  site; a thrown exception is `Except.error` carrying the engine state at
  the moment of the throw (in-memory mutations performed before the throw
  survive, exactly as in the source).  `try/catch` blocks of the source
  become `match` on the `Except`.
* The client identity is passed as a parameter (the source resolves it with
  `getClientIdentifier`, which by construction never throws); date
  formatting (`toLocaleString`) is abstracted to `toString` of the
  timestamp.
-/

/-- Configuration record, field for field the source's `DDoSConfig`.
Counting thresholds are `Nat`; durations in milliseconds are `Int`. -/
structure DDoSConfig where
  maxRequestsPerMinute : Nat
  maxRequestsPerHour : Nat
  maxRequestsPerDay : Nat
  maxIPRequestsPerMinute : Nat
  maxIPRequestsPerHour : Nat
  minRequestInterval : Int
  maxBurstRequests : Nat
  blacklistDuration : Int
  autoBlacklistThreshold : Nat
  deriving Repr, DecidableEq

/-- The source's `defaultDDoSConfig`. -/
def defaultDDoSConfig : DDoSConfig where
  maxRequestsPerMinute := 60
  maxRequestsPerHour := 500
  maxRequestsPerDay := 2000
  maxIPRequestsPerMinute := 20
  maxIPRequestsPerHour := 100
  minRequestInterval := 100
  maxBurstRequests := 10
  blacklistDuration := 24 * 60 * 60 * 1000
  autoBlacklistThreshold := 50

/-- Result record, field for field the source's `DDoSCheckResult`. -/
structure DDoSCheckResult where
  allowed : Bool
  reason : Option String := none
  remainingRequests : Option Nat := none
  resetTime : Option Int := none
  isBlacklisted : Option Bool := none
  violations : Option Nat := none
  deriving Repr, DecidableEq

/-- One row of the `request_logs` table, as inserted by `logRequest`. -/
structure RequestLog where
  ip_address : String
  endpoint : String
  timestamp : Int
  deriving Repr, DecidableEq

/-- One row of the `ip_blacklist` table. -/
structure BlacklistRow where
  client_id : String
  reason : String
  expires_at : Int
  deriving Repr, DecidableEq

/-- One row of the `security_events` table (the two insert shapes of the
source share this record; unused columns are `none`). -/
structure SecurityEvent where
  client_id : String
  event_type : String
  violation_type : Option String := none
  violation_count : Option Nat := none
  details : Option String := none
  deriving Repr, DecidableEq

/-- The durable store: the three supabase tables the engine touches. -/
structure DurableStore where
  request_logs : List RequestLog
  ip_blacklist : List BlacklistRow
  security_events : List SecurityEvent
  deriving Repr, DecidableEq

/-- Fault injection: one flag per fallible durable-store call site.  A set
flag makes that call throw. -/
structure FaultModel where
  blacklistQueryFails : Bool := false
  minuteCountFails : Bool := false
  hourCountFails : Bool := false
  dayCountFails : Bool := false
  ipMinuteCountFails : Bool := false
  ipHourCountFails : Bool := false
  securityInsertFails : Bool := false
  violationInsertFails : Bool := false
  blacklistInsertFails : Bool := false
  blacklistDeleteFails : Bool := false
  requestLogInsertFails : Bool := false
  deriving Repr, DecidableEq

/-- The fault-free environment: every durable-store call succeeds. -/
def noFaults : FaultModel := {}

/-- Whole-engine state: the module-level in-memory caches plus the durable
store.  Missing map keys carry the JavaScript defaults. -/
structure EngineState where
  requestCache : String → List Int
  blacklistCache : String → Bool
  violationCache : String → Nat
  lastCleanup : Int
  store : DurableStore

/-- State of a freshly started process with an empty durable store;
`t0` is the module-load time that initialises `lastCleanup`. -/
def freshState (t0 : Int) : EngineState where
  requestCache := fun _ => []
  blacklistCache := fun _ => false
  violationCache := fun _ => 0
  lastCleanup := t0
  store := ⟨[], [], []⟩

/-- Deny message of the burst-count branch of `checkBurstPattern`. -/
def burstCountMsg (n : Nat) : String :=
  "Too many requests in short time (" ++ toString n ++ " requests in 1 second)"

/-- Deny message of the minimum-interval branch of `checkBurstPattern`. -/
def burstIntervalMsg (interval minInterval : Int) : String :=
  "Requests too frequent (" ++ toString interval ++ "ms interval, minimum "
    ++ toString minInterval ++ "ms)"

/-- Deny message of the cache hit branch of `checkBlacklist`. -/
def blacklistCacheMsg : String :=
  "IP is blacklisted due to suspicious activity"

/-- Deny message of the durable hit branch of `checkBlacklist`. -/
def blacklistDbMsg (expiresAt : Int) : String :=
  "IP blacklisted until " ++ toString expiresAt

/-- Deny message of the per-minute branch of `checkRateLimits`. -/
def rateMinuteMsg (count limit : Nat) : String :=
  "Rate limit exceeded: " ++ toString count ++ "/" ++ toString limit
    ++ " requests per minute"

/-- Deny message of the per-hour branch of `checkRateLimits`. -/
def rateHourMsg (count limit : Nat) : String :=
  "Rate limit exceeded: " ++ toString count ++ "/" ++ toString limit
    ++ " requests per hour"

/-- Deny message of the per-day branch of `checkRateLimits`. -/
def rateDayMsg (count limit : Nat) : String :=
  "Daily limit exceeded: " ++ toString count ++ "/" ++ toString limit
    ++ " requests per day"

/-- Deny message of the per-minute branch of `checkIPLimits`. -/
def ipMinuteMsg (count limit : Nat) : String :=
  "IP rate limit exceeded: " ++ toString count ++ "/" ++ toString limit
    ++ " requests per minute from this IP"

/-- Deny message of the per-hour branch of `checkIPLimits`. -/
def ipHourMsg (count limit : Nat) : String :=
  "IP rate limit exceeded: " ++ toString count ++ "/" ++ toString limit
    ++ " requests per hour from this IP"

/-- Ban reason written by the auto-escalation branch of `recordViolation`. -/
def autoBanMsg (n : Nat) : String :=
  "Auto-blacklisted after " ++ toString n ++ " violations"

/-- The supabase count query
`from('request_logs').select(count).eq('ip_address', clientId).gte('timestamp', since)`
used by both `checkRateLimits` and `checkIPLimits`: the number of logged
requests of this one identity (any endpoint) with timestamp at or after
`since`. -/
def countLogsSince (db : DurableStore) (clientId : String) (since : Int) : Nat :=
  (db.request_logs.filter
    (fun r => r.ip_address == clientId && since ≤ r.timestamp)).length

/-- The supabase query
`from('ip_blacklist').select().eq('client_id', clientId).gt('expires_at', now).single()`
used by `checkBlacklist`: `.single()` yields a row exactly when the filter
matches exactly one row, and errors (treated by the source as not
blacklisted) otherwise. -/
def findBlacklistRow (db : DurableStore) (clientId : String) (now : Int) :
    Option BlacklistRow :=
  match db.ip_blacklist.filter
      (fun r => r.client_id == clientId && now < r.expires_at) with
  | [r] => some r
  | _ => none

/-- Source `logSecurityEvent`: inserts a row into `security_events`; its own
`try/catch` swallows insert failures, so it is total. -/
def logSecurityEvent (fm : FaultModel) (eventType clientId details : String)
    (db : DurableStore) : DurableStore :=
  if fm.securityInsertFails then db
  else { db with security_events :=
          db.security_events ++ [{ client_id := clientId, event_type := eventType,
                                   details := some details }] }

/-- Source `logRequest`: inserts a row into `request_logs`; its own
`try/catch` swallows insert failures.  The inserted timestamp is the
request time. -/
def logRequest (fm : FaultModel) (clientId endpoint : String) (now : Int)
    (db : DurableStore) : DurableStore :=
  if fm.requestLogInsertFails then db
  else { db with request_logs :=
          db.request_logs ++ [{ ip_address := clientId, endpoint := endpoint,
                                timestamp := now }] }

/-- Source `checkBlacklist`: in-memory cache first; on cache miss a durable
query whose failure is swallowed by the inner `try/catch`; a durable hit
populates the cache. -/
def checkBlacklist (fm : FaultModel) (clientId : String) (now : Int)
    (st : EngineState) : DDoSCheckResult × EngineState :=
  if st.blacklistCache clientId then
    ({ allowed := false, reason := some blacklistCacheMsg,
       isBlacklisted := some true }, st)
  else if fm.blacklistQueryFails then
    ({ allowed := true }, st)
  else
    match findBlacklistRow st.store clientId now with
    | some row =>
        ({ allowed := false, reason := some (blacklistDbMsg row.expires_at),
           isBlacklisted := some true },
         { st with blacklistCache :=
            fun s => if s == clientId then true else st.blacklistCache s })
    | none => ({ allowed := true }, st)

/-- Source `checkBurstPattern`: prune the identity's cached timestamps to
the last second, deny on the burst ceiling, deny on the minimum interval,
otherwise append `now` and store the pruned list.  Purely in-memory. -/
def checkBurstPattern (clientId : String) (config : DDoSConfig) (now : Int)
    (st : EngineState) : DDoSCheckResult × EngineState :=
  let requests := st.requestCache clientId
  let recentRequests := requests.filter (fun t => now - t < 1000)
  if config.maxBurstRequests ≤ recentRequests.length then
    ({ allowed := false, reason := some (burstCountMsg recentRequests.length) }, st)
  else
    match recentRequests.getLast? with
    | some lastRequest =>
        let interval := now - lastRequest
        if interval < config.minRequestInterval then
          ({ allowed := false,
             reason := some (burstIntervalMsg interval config.minRequestInterval) }, st)
        else
          ({ allowed := true },
           { st with requestCache :=
              fun s => if s == clientId then recentRequests ++ [now]
                       else st.requestCache s })
    | none =>
        ({ allowed := true },
         { st with requestCache :=
            fun s => if s == clientId then recentRequests ++ [now]
                     else st.requestCache s })

/-- Source `checkRateLimits`: three sequential count queries against
`request_logs`, each filtered to this identity (`.eq('ip_address', clientId)`);
the `endpoint` parameter is declared but unused (`_endpoint`).  A failing
query throws (`Except.error`), to be caught by the orchestrator. -/
def checkRateLimits (fm : FaultModel) (clientId : String) (_endpoint : String)
    (config : DDoSConfig) (now : Int) (db : DurableStore) :
    Except Unit DDoSCheckResult :=
  if fm.minuteCountFails then .error () else
  let minuteCount := countLogsSince db clientId (now - 60 * 1000)
  if config.maxRequestsPerMinute ≤ minuteCount then
    .ok { allowed := false,
          reason := some (rateMinuteMsg minuteCount config.maxRequestsPerMinute),
          remainingRequests := some 0, resetTime := some (now + 60 * 1000) }
  else
  if fm.hourCountFails then .error () else
  let hourCount := countLogsSince db clientId (now - 60 * 60 * 1000)
  if config.maxRequestsPerHour ≤ hourCount then
    .ok { allowed := false,
          reason := some (rateHourMsg hourCount config.maxRequestsPerHour),
          remainingRequests := some 0, resetTime := some (now + 60 * 60 * 1000) }
  else
  if fm.dayCountFails then .error () else
  let dayCount := countLogsSince db clientId (now - 24 * 60 * 60 * 1000)
  if config.maxRequestsPerDay ≤ dayCount then
    .ok { allowed := false,
          reason := some (rateDayMsg dayCount config.maxRequestsPerDay),
          remainingRequests := some 0, resetTime := some (now + 24 * 60 * 60 * 1000) }
  else
    .ok { allowed := true,
          remainingRequests := some (config.maxRequestsPerMinute - minuteCount),
          resetTime := some (now + 60 * 1000) }

/-- Source `checkIPLimits`: two further count queries with the same
identity filter, against the IP-specific thresholds. -/
def checkIPLimits (fm : FaultModel) (clientId : String) (config : DDoSConfig)
    (now : Int) (db : DurableStore) : Except Unit DDoSCheckResult :=
  if fm.ipMinuteCountFails then .error () else
  let ipMinuteCount := countLogsSince db clientId (now - 60 * 1000)
  if config.maxIPRequestsPerMinute ≤ ipMinuteCount then
    .ok { allowed := false,
          reason := some (ipMinuteMsg ipMinuteCount config.maxIPRequestsPerMinute) }
  else
  if fm.ipHourCountFails then .error () else
  let ipHourCount := countLogsSince db clientId (now - 60 * 60 * 1000)
  if config.maxIPRequestsPerHour ≤ ipHourCount then
    .ok { allowed := false,
          reason := some (ipHourMsg ipHourCount config.maxIPRequestsPerHour) }
  else
    .ok { allowed := true }

/-- Source `blacklistIP`: insert a durable `ip_blacklist` row expiring at
`now + duration`, add the identity to the in-memory cache, then log a
security event.  The insert is not guarded, so its failure throws with the
state unchanged. -/
def blacklistIP (fm : FaultModel) (clientId reason : String) (duration : Int)
    (now : Int) (st : EngineState) : Except EngineState EngineState :=
  let expiresAt := now + duration
  if fm.blacklistInsertFails then .error st
  else
    let st1 : EngineState :=
      { st with store :=
          { st.store with ip_blacklist :=
              st.store.ip_blacklist ++ [{ client_id := clientId, reason := reason,
                                          expires_at := expiresAt }] } }
    let st2 : EngineState :=
      { st1 with blacklistCache :=
          fun s => if s == clientId then true else st1.blacklistCache s }
    .ok { st2 with store :=
            logSecurityEvent fm "ip_blacklisted" clientId reason st2.store }

/-- Source `recordViolation`: bump the in-memory counter, insert a
`security_events` violation row (unguarded, may throw after the bump), then
auto-blacklist when the counter reaches `defaultDDoSConfig`'s threshold —
the source consults `defaultDDoSConfig` here, not the configuration of the
admission decision, and `blacklistIP` is called with its default duration
argument, `defaultDDoSConfig.blacklistDuration`. -/
def recordViolation (fm : FaultModel) (clientId violationType : String)
    (now : Int) (st : EngineState) : Except EngineState EngineState :=
  let violations := st.violationCache clientId + 1
  let st1 : EngineState :=
    { st with violationCache :=
        fun s => if s == clientId then violations else st.violationCache s }
  if fm.violationInsertFails then .error st1
  else
    let st2 : EngineState :=
      { st1 with store :=
          { st1.store with security_events :=
              st1.store.security_events ++
                [{ client_id := clientId, event_type := "violation",
                   violation_type := some violationType,
                   violation_count := some violations }] } }
    if defaultDDoSConfig.autoBlacklistThreshold ≤ violations then
      blacklistIP fm clientId (autoBanMsg violations)
        defaultDDoSConfig.blacklistDuration now st2
    else
      .ok st2

/-- Source `unblacklistIP`: delete every durable row of the identity
(unguarded), drop it from the blacklist cache and the violation cache, then
log a security event. -/
def unblacklistIP (fm : FaultModel) (clientId : String)
    (st : EngineState) : Except EngineState EngineState :=
  if fm.blacklistDeleteFails then .error st
  else
    let st1 : EngineState :=
      { st with store :=
          { st.store with ip_blacklist :=
              st.store.ip_blacklist.filter (fun r => !(r.client_id == clientId)) } }
    let st2 : EngineState :=
      { st1 with
          blacklistCache :=
            fun s => if s == clientId then false else st1.blacklistCache s,
          violationCache :=
            fun s => if s == clientId then 0 else st1.violationCache s }
    .ok { st2 with store :=
            logSecurityEvent fm "ip_unblacklisted" clientId "Manual unblock" st2.store }

/-- Source `cleanupCache`: keep only request timestamps of the last five
minutes (an identity whose list empties is deleted, which the functional
map renders identically), and delete every violation-cache entry — the loop
body deletes unconditionally, so all running counts drop to zero.  The
blacklist cache is untouched. -/
def cleanupCache (now : Int) (st : EngineState) : EngineState :=
  { st with
      requestCache :=
        fun s => (st.requestCache s).filter (fun t => now - 5 * 60 * 1000 < t),
      violationCache := fun _ => 0 }

/-- The cleanup trigger at the top of `checkDDoSProtection`: run
`cleanupCache` and reset `lastCleanup` when more than five minutes passed. -/
def runCleanup (now : Int) (st : EngineState) : EngineState :=
  if 5 * 60 * 1000 < now - st.lastCleanup then
    { cleanupCache now st with lastCleanup := now }
  else st

/-- Body of the source `checkDDoSProtection` inside its `try`: the check
sequence with early returns; a throw from an unguarded durable call
surfaces as `Except.error` carrying the state at the throw. -/
def checkDDoSBody (fm : FaultModel) (clientId endpoint : String)
    (config : DDoSConfig) (now : Int) (st0 : EngineState) :
    Except EngineState (DDoSCheckResult × EngineState) :=
  let st := runCleanup now st0
  let blacklistStep := checkBlacklist fm clientId now st
  let blacklistCheck := blacklistStep.1
  let st := blacklistStep.2
  if blacklistCheck.isBlacklisted = some true then
    .ok (blacklistCheck,
         { st with store := logSecurityEvent fm "blacklist_block" clientId endpoint st.store })
  else
    let burstStep := checkBurstPattern clientId config now st
    let burstCheck := burstStep.1
    let st := burstStep.2
    if !burstCheck.allowed then
      match recordViolation fm clientId "burst_detected" now st with
      | .error st1 => .error st1
      | .ok st1 => .ok (burstCheck, st1)
    else
      match checkRateLimits fm clientId endpoint config now st.store with
      | .error _ => .error st
      | .ok rateLimitCheck =>
        if !rateLimitCheck.allowed then
          match recordViolation fm clientId "rate_limit_exceeded" now st with
          | .error st1 => .error st1
          | .ok st1 => .ok (rateLimitCheck, st1)
        else
          match checkIPLimits fm clientId config now st.store with
          | .error _ => .error st
          | .ok ipLimitCheck =>
            if !ipLimitCheck.allowed then
              match recordViolation fm clientId "ip_limit_exceeded" now st with
              | .error st1 => .error st1
              | .ok st1 => .ok (ipLimitCheck, st1)
            else
              let st1 : EngineState :=
                { st with store := logRequest fm clientId endpoint now st.store }
              .ok ({ allowed := true,
                     remainingRequests := rateLimitCheck.remainingRequests,
                     resetTime := rateLimitCheck.resetTime }, st1)

/-- Source `checkDDoSProtection`: the body under the outer `try/catch`;
any escaped throw is caught and converted to a plain fail-open
`{ allowed: true }` with no further logging (the source only writes to the
console there). -/
def checkDDoSProtection (fm : FaultModel) (clientId endpoint : String)
    (config : DDoSConfig) (now : Int) (st : EngineState) :
    DDoSCheckResult × EngineState :=
  match checkDDoSBody fm clientId endpoint config now st with
  | .ok r => r
  | .error st1 => ({ allowed := true }, st1)

/-- Iterate full admission checks of one identity at the given request
times, collecting each call's `allowed` flag. -/
def runAdmitCalls (fm : FaultModel) (clientId endpoint : String)
    (config : DDoSConfig) (times : List Int) (st : EngineState) :
    List Bool × EngineState :=
  match times with
  | [] => ([], st)
  | t :: ts =>
      let step := checkDDoSProtection fm clientId endpoint config t st
      let rest := runAdmitCalls fm clientId endpoint config ts step.2
      (step.1.allowed :: rest.1, rest.2)

/-- Count of ledger rows on one endpoint from all identities since `since`.
This definition follows the specification's words for the global window
checks (`countSince` with identity `"*"`, scoped to the protected
endpoint), for comparison against the source's `countLogsSince`. -/
def specGlobalCountSince (db : DurableStore) (endpoint : String) (since : Int) : Nat :=
  (db.request_logs.filter
    (fun r => r.endpoint == endpoint && since ≤ r.timestamp)).length

/-! ## Frame and shape lemmas about the individual operations -/

/-- Unwrap an engine-state `Except`, taking the carried state either way. -/
def unExcept (e : Except EngineState EngineState) : EngineState :=
  match e with
  | .ok s => s
  | .error s => s

theorem runCleanup_not_due (now : Int) (st : EngineState)
    (h : now - st.lastCleanup ≤ 5 * 60 * 1000) : runCleanup now st = st := by
  unfold runCleanup
  rw [if_neg]
  omega

theorem checkBlacklist_frame (fm : FaultModel) (clientId : String) (now : Int)
    (st : EngineState) :
    (checkBlacklist fm clientId now st).2.requestCache = st.requestCache ∧
    (checkBlacklist fm clientId now st).2.violationCache = st.violationCache ∧
    (checkBlacklist fm clientId now st).2.store = st.store ∧
    (checkBlacklist fm clientId now st).2.lastCleanup = st.lastCleanup := by
  unfold checkBlacklist
  split
  · exact ⟨rfl, rfl, rfl, rfl⟩
  · split
    · exact ⟨rfl, rfl, rfl, rfl⟩
    · split <;> exact ⟨rfl, rfl, rfl, rfl⟩

theorem checkBlacklist_not_banned (fm : FaultModel) (clientId : String) (now : Int)
    (st : EngineState)
    (h : (checkBlacklist fm clientId now st).1.isBlacklisted ≠ some true) :
    checkBlacklist fm clientId now st = ({ allowed := true }, st) := by
  unfold checkBlacklist at h ⊢
  cases hbc : st.blacklistCache clientId with
  | true => simp [hbc] at h
  | false =>
    simp only [hbc] at h ⊢
    cases hq : fm.blacklistQueryFails with
    | true => simp [hq]
    | false =>
      simp only [hq] at h ⊢
      cases hf : findBlacklistRow st.store clientId now with
      | some row => simp [hf] at h
      | none => simp [hf]

theorem checkBurstPattern_frame (clientId : String) (config : DDoSConfig)
    (now : Int) (st : EngineState) :
    (checkBurstPattern clientId config now st).2.blacklistCache = st.blacklistCache ∧
    (checkBurstPattern clientId config now st).2.violationCache = st.violationCache ∧
    (checkBurstPattern clientId config now st).2.store = st.store ∧
    (checkBurstPattern clientId config now st).2.lastCleanup = st.lastCleanup ∧
    (∀ s, s ≠ clientId → (checkBurstPattern clientId config now st).2.requestCache s
        = st.requestCache s) := by
  unfold checkBurstPattern
  dsimp only
  split
  · exact ⟨rfl, rfl, rfl, rfl, fun s _ => rfl⟩
  · split
    · split
      · exact ⟨rfl, rfl, rfl, rfl, fun s _ => rfl⟩
      · refine ⟨rfl, rfl, rfl, rfl, fun s hs => ?_⟩
        simp only [show (s == clientId) = false from beq_eq_false_iff_ne.mpr hs,
          Bool.false_eq_true, if_false]
    · refine ⟨rfl, rfl, rfl, rfl, fun s hs => ?_⟩
      simp only [show (s == clientId) = false from beq_eq_false_iff_ne.mpr hs,
        Bool.false_eq_true, if_false]

theorem checkBurstPattern_deny_state (clientId : String) (config : DDoSConfig)
    (now : Int) (st : EngineState) (r : DDoSCheckResult) (st2 : EngineState)
    (hres : checkBurstPattern clientId config now st = (r, st2))
    (h : r.allowed = false) : st2 = st := by
  unfold checkBurstPattern at hres
  dsimp only at hres
  split at hres
  · injection hres with h1 h2
    exact h2.symm
  · split at hres
    · split at hres
      · injection hres with h1 h2
        exact h2.symm
      · injection hres with h1 h2
        rw [← h1] at h
        simp at h
    · injection hres with h1 h2
      rw [← h1] at h
      simp at h

theorem checkBurstPattern_allow_cache (clientId : String) (config : DDoSConfig)
    (now : Int) (st : EngineState) (r : DDoSCheckResult) (st2 : EngineState)
    (hres : checkBurstPattern clientId config now st = (r, st2))
    (h : r.allowed = true) :
    st2.requestCache clientId
      = (st.requestCache clientId).filter (fun t => now - t < 1000) ++ [now] := by
  unfold checkBurstPattern at hres
  dsimp only at hres
  split at hres
  · injection hres with h1 h2
    rw [← h1] at h
    simp at h
  · split at hres
    · split at hres
      · injection hres with h1 h2
        rw [← h1] at h
        simp at h
      · injection hres with h1 h2
        rw [← h2]
        simp
    · injection hres with h1 h2
      rw [← h2]
      simp

theorem logSecurityEvent_frame (fm : FaultModel) (a b c : String) (db : DurableStore) :
    (logSecurityEvent fm a b c db).request_logs = db.request_logs ∧
    (logSecurityEvent fm a b c db).ip_blacklist = db.ip_blacklist := by
  unfold logSecurityEvent
  split <;> exact ⟨rfl, rfl⟩

theorem logRequest_frame (fm : FaultModel) (a b : String) (now : Int) (db : DurableStore) :
    (logRequest fm a b now db).ip_blacklist = db.ip_blacklist ∧
    (logRequest fm a b now db).security_events = db.security_events := by
  unfold logRequest
  split <;> exact ⟨rfl, rfl⟩

theorem blacklistIP_frame (fm : FaultModel) (clientId reason : String)
    (dur now : Int) (st st1 : EngineState)
    (h : blacklistIP fm clientId reason dur now st = .ok st1 ∨
         blacklistIP fm clientId reason dur now st = .error st1) :
    st1.requestCache = st.requestCache ∧
    st1.store.request_logs = st.store.request_logs ∧
    st1.lastCleanup = st.lastCleanup ∧
    st1.violationCache = st.violationCache := by
  unfold blacklistIP at h
  dsimp only at h
  split at h
  · rcases h with h | h
    · simp at h
    · injection h with h1
      rw [← h1]
      exact ⟨rfl, rfl, rfl, rfl⟩
  · rcases h with h | h
    · injection h with h1
      rw [← h1]
      refine ⟨rfl, ?_, rfl, rfl⟩
      exact (logSecurityEvent_frame fm "ip_blacklisted" clientId reason _).1
    · simp at h

theorem recordViolation_frame (fm : FaultModel) (clientId vt : String) (now : Int)
    (st st1 : EngineState)
    (h : recordViolation fm clientId vt now st = .ok st1 ∨
         recordViolation fm clientId vt now st = .error st1) :
    st1.requestCache = st.requestCache ∧
    st1.store.request_logs = st.store.request_logs ∧
    st1.lastCleanup = st.lastCleanup ∧
    (∀ s, st.violationCache s ≤ st1.violationCache s) ∧
    st1.violationCache clientId = st.violationCache clientId + 1 := by
  have hbump : ∀ s, st.violationCache s ≤
      (fun x => if x == clientId then st.violationCache clientId + 1
                else st.violationCache x) s := by
    intro s
    by_cases hs : s = clientId
    · subst hs
      simp
    · simp [hs]
  have hbumpid : (fun x => if x == clientId then st.violationCache clientId + 1
                else st.violationCache x) clientId = st.violationCache clientId + 1 := by
    simp
  unfold recordViolation at h
  dsimp only at h
  split at h
  · rcases h with h | h
    · simp at h
    · injection h with h1
      rw [← h1]
      exact ⟨rfl, rfl, rfl, hbump, hbumpid⟩
  · split at h
    · have hfr := blacklistIP_frame fm clientId
        (autoBanMsg (st.violationCache clientId + 1))
        defaultDDoSConfig.blacklistDuration now _ st1 h
      refine ⟨hfr.1, hfr.2.1, hfr.2.2.1, ?_, ?_⟩
      · intro s
        rw [show st1.violationCache = _ from hfr.2.2.2]
        exact hbump s
      · rw [show st1.violationCache = _ from hfr.2.2.2]
        exact hbumpid
    · rcases h with h | h
      · injection h with h1
        rw [← h1]
        exact ⟨rfl, rfl, rfl, hbump, hbumpid⟩
      · simp at h

theorem recordViolation_noFaults_not_error (clientId vt : String) (now : Int)
    (st st1 : EngineState) :
    recordViolation noFaults clientId vt now st ≠ .error st1 := by
  intro h
  unfold recordViolation blacklistIP noFaults at h
  dsimp only at h
  split at h
  case isTrue hft => exact absurd hft (by simp)
  case isFalse => split at h <;> simp at h

theorem checkRateLimits_noFaults_not_error (clientId endpoint : String)
    (config : DDoSConfig) (now : Int) (db : DurableStore) :
    checkRateLimits noFaults clientId endpoint config now db ≠ .error () := by
  intro h
  unfold checkRateLimits noFaults at h
  dsimp only at h
  simp only [Bool.false_eq_true, if_false] at h
  split at h
  · simp at h
  · split at h
    · simp at h
    · split at h <;> simp at h

theorem checkIPLimits_noFaults_not_error (clientId : String)
    (config : DDoSConfig) (now : Int) (db : DurableStore) :
    checkIPLimits noFaults clientId config now db ≠ .error () := by
  intro h
  unfold checkIPLimits noFaults at h
  dsimp only at h
  simp only [Bool.false_eq_true, if_false] at h
  split at h
  · simp at h
  · split at h <;> simp at h

/-- C5: for every identity and request time, `checkBurstPattern` first
prunes the identity's stored timestamps to those within the last 1000 ms,
then denies with a burst reason when the pruned list's length is at least
`maxBurstRequests`, else denies with a burst reason when the pruned list is
non-empty and `now` minus its last timestamp is below `minRequestInterval`,
and otherwise appends `now` to the pruned list and allows. -/
theorem checkBurstPattern_algorithm (clientId : String) (config : DDoSConfig)
    (now : Int) (st : EngineState) (pruned : List Int)
    (hp : pruned = (st.requestCache clientId).filter (fun t => now - t < 1000)) :
    (config.maxBurstRequests ≤ pruned.length →
      checkBurstPattern clientId config now st
        = ({ allowed := false, reason := some (burstCountMsg pruned.length) }, st)) ∧
    (pruned.length < config.maxBurstRequests →
      ∀ lastRequest, pruned.getLast? = some lastRequest →
        now - lastRequest < config.minRequestInterval →
          checkBurstPattern clientId config now st
            = ({ allowed := false,
                 reason := some (burstIntervalMsg (now - lastRequest)
                   config.minRequestInterval) }, st)) ∧
    (pruned.length < config.maxBurstRequests →
      (∀ lastRequest, pruned.getLast? = some lastRequest →
          config.minRequestInterval ≤ now - lastRequest) →
        (checkBurstPattern clientId config now st).1 = { allowed := true } ∧
        (checkBurstPattern clientId config now st).2.requestCache clientId
          = pruned ++ [now]) := by
  subst hp
  unfold checkBurstPattern
  dsimp only
  refine ⟨?_, ?_, ?_⟩
  · intro hle
    rw [if_pos hle]
  · intro hlt lastRequest hlast hint
    rw [if_neg (by omega), hlast]
    dsimp only
    rw [if_pos hint]
  · intro hlt hge
    rw [if_neg (by omega)]
    cases hlast : ((st.requestCache clientId).filter
        (fun t => now - t < 1000)).getLast? with
    | none => exact ⟨rfl, by simp⟩
    | some lastRequest =>
      dsimp only
      rw [if_neg (not_lt.mpr (hge lastRequest hlast))]
      exact ⟨rfl, by simp⟩

/-- Concrete state for the C5 witness: identity A has one cached timestamp. -/
def stC5 : EngineState :=
  { freshState 0 with requestCache := fun s => if s == "A" then [500] else [] }

/-- Witness for C5 at a concrete input: one 500 ms old timestamp, burst
ceiling not reached, interval respected, so the call allows and appends. -/
theorem checkBurstPattern_algorithm_witness :
    (checkBurstPattern "A" defaultDDoSConfig 1000 stC5).1 = { allowed := true } ∧
    (checkBurstPattern "A" defaultDDoSConfig 1000 stC5).2.requestCache "A"
      = [500, 1000] := by
  have h := (checkBurstPattern_algorithm "A" defaultDDoSConfig 1000 stC5 [500]
      (by decide)).2.2 (by decide)
      (by intro l hl; simp at hl; subst hl; decide)
  exact ⟨h.1, h.2⟩

/-- C10: an admit() call denied by the burst check leaves the identity's
in-memory burst timestamp list unchanged (its timestamp is not appended, so
burst-denied requests do not consume burst capacity), while a call that
passes the burst check stores the pruned list with its timestamp appended
even when a later window check denies the request. -/
theorem burst_frame_effect (clientId endpoint : String) (config : DDoSConfig)
    (now : Int) (st : EngineState)
    (hclean : now - st.lastCleanup ≤ 5 * 60 * 1000)
    (hnb : (checkBlacklist noFaults clientId now st).1.isBlacklisted ≠ some true) :
    ((checkBurstPattern clientId config now st).1.allowed = false →
      (checkDDoSProtection noFaults clientId endpoint config now st).2.requestCache clientId
        = st.requestCache clientId) ∧
    ((checkBurstPattern clientId config now st).1.allowed = true →
      (checkDDoSProtection noFaults clientId endpoint config now st).2.requestCache clientId
        = (st.requestCache clientId).filter (fun t => now - t < 1000) ++ [now]) := by
  have hbl := checkBlacklist_not_banned noFaults clientId now st hnb
  unfold checkDDoSProtection checkDDoSBody
  rw [runCleanup_not_due now st hclean]
  dsimp only
  rw [hbl]
  dsimp only
  rw [if_neg (by simp)]
  rcases hbr : checkBurstPattern clientId config now st with ⟨br, st2⟩
  constructor
  · intro hden
    have hden' : br.allowed = false := hden
    have hst2 : st2 = st := checkBurstPattern_deny_state _ _ _ _ _ _ hbr hden'
    simp only [hden', Bool.not_false, reduceIte]
    cases hrv : recordViolation noFaults clientId "burst_detected" now st2 with
    | error st1 => exact absurd hrv (recordViolation_noFaults_not_error _ _ _ _ _)
    | ok st1 =>
      dsimp only
      rw [(recordViolation_frame noFaults clientId "burst_detected" now st2 st1
        (Or.inl hrv)).1, hst2]
  · intro hal
    have hal' : br.allowed = true := hal
    have hcache := checkBurstPattern_allow_cache clientId config now st br st2 hbr hal'
    simp only [hal', Bool.not_true, Bool.false_eq_true, if_false]
    cases hrl : checkRateLimits noFaults clientId endpoint config now st2.store with
    | error e =>
      cases e
      exact absurd hrl (checkRateLimits_noFaults_not_error _ _ _ _ _)
    | ok rl =>
      dsimp only
      cases hrla : rl.allowed with
      | false =>
        simp only [Bool.not_false, reduceIte]
        cases hrv : recordViolation noFaults clientId "rate_limit_exceeded" now st2 with
        | error st1 => exact absurd hrv (recordViolation_noFaults_not_error _ _ _ _ _)
        | ok st1 =>
          dsimp only
          rw [(recordViolation_frame noFaults clientId "rate_limit_exceeded" now st2 st1
            (Or.inl hrv)).1, hcache]
      | true =>
        simp only [Bool.not_true, Bool.false_eq_true, if_false]
        cases hip : checkIPLimits noFaults clientId config now st2.store with
        | error e =>
          cases e
          exact absurd hip (checkIPLimits_noFaults_not_error _ _ _ _)
        | ok ip =>
          dsimp only
          cases hipa : ip.allowed with
          | false =>
            simp only [Bool.not_false, reduceIte]
            cases hrv : recordViolation noFaults clientId "ip_limit_exceeded" now st2 with
            | error st1 => exact absurd hrv (recordViolation_noFaults_not_error _ _ _ _ _)
            | ok st1 =>
              dsimp only
              rw [(recordViolation_frame noFaults clientId "ip_limit_exceeded" now st2 st1
                (Or.inl hrv)).1, hcache]
          | true =>
            simp only [Bool.not_true, Bool.false_eq_true, if_false]
            exact hcache

/-- Concrete state for the C10 witness: identity A has a 50 ms old cached
timestamp, so a call at time 1000 is denied by the minimum interval. -/
def stC10 : EngineState :=
  { freshState 0 with requestCache := fun s => if s == "A" then [950] else [] }

/-- Witness for C10 at a concrete input: the burst-denied call leaves A's
timestamp list exactly as it was. -/
theorem burst_frame_effect_witness :
    (checkBurstPattern "A" defaultDDoSConfig 1000 stC10).1.allowed = false ∧
    (checkDDoSProtection noFaults "A" "/create" defaultDDoSConfig 1000 stC10).2.requestCache "A"
      = [950] :=
  ⟨by decide,
   ((burst_frame_effect "A" "/create" defaultDDoSConfig 1000 stC10 (by decide)
      (by decide)).1 (by decide)).trans (by decide)⟩

theorem checkBlacklist_banned_allowed (fm : FaultModel) (clientId : String)
    (now : Int) (st : EngineState)
    (hb : (checkBlacklist fm clientId now st).1.isBlacklisted = some true) :
    (checkBlacklist fm clientId now st).1.allowed = false := by
  unfold checkBlacklist at hb ⊢
  cases hbc : st.blacklistCache clientId with
  | true => simp [hbc]
  | false =>
    simp only [hbc] at hb ⊢
    cases hq : fm.blacklistQueryFails with
    | true => simp [hq] at hb
    | false =>
      simp only [hq] at hb ⊢
      cases hf : findBlacklistRow st.store clientId now with
      | some row => simp [hf]
      | none => simp [hf] at hb

theorem logSecurityEvent_noFaults (a b c : String) (db : DurableStore) :
    logSecurityEvent noFaults a b c db
      = { db with security_events := db.security_events ++
          [{ client_id := b, event_type := a, details := some c }] } := by
  unfold logSecurityEvent noFaults
  dsimp only
  rw [if_neg (by simp)]

/-- C8: when the blacklist check reports the identity banned, admit()
returns that deny without invoking the violation tracker: every violation
counter is unchanged, no violation row is written, and the one appended
security event is a blacklist-block record; the ledger is untouched. -/
theorem blacklist_deny_no_violation (clientId endpoint : String) (config : DDoSConfig)
    (now : Int) (st : EngineState)
    (hclean : now - st.lastCleanup ≤ 5 * 60 * 1000)
    (hb : (checkBlacklist noFaults clientId now st).1.isBlacklisted = some true) :
    (checkDDoSProtection noFaults clientId endpoint config now st).1
      = (checkBlacklist noFaults clientId now st).1 ∧
    (checkDDoSProtection noFaults clientId endpoint config now st).1.allowed = false ∧
    (checkDDoSProtection noFaults clientId endpoint config now st).2.violationCache
      = st.violationCache ∧
    (checkDDoSProtection noFaults clientId endpoint config now st).2.store.security_events
      = st.store.security_events ++
        [{ client_id := clientId, event_type := "blacklist_block",
           details := some endpoint }] ∧
    (checkDDoSProtection noFaults clientId endpoint config now st).2.store.request_logs
      = st.store.request_logs := by
  have hal := checkBlacklist_banned_allowed noFaults clientId now st hb
  have hfr := checkBlacklist_frame noFaults clientId now st
  unfold checkDDoSProtection checkDDoSBody
  rw [runCleanup_not_due now st hclean]
  dsimp only
  rcases hblr : checkBlacklist noFaults clientId now st with ⟨bl, stb⟩
  rw [hblr] at hb hal hfr
  dsimp only at hb hal hfr ⊢
  rw [if_pos hb]
  dsimp only
  rw [logSecurityEvent_noFaults]
  refine ⟨rfl, hal, hfr.2.1, ?_, ?_⟩
  · dsimp only
    rw [hfr.2.2.1]
  · dsimp only
    rw [hfr.2.2.1]

/-- Concrete state for the C8 witness: identity A is in the blacklist cache. -/
def stC8 : EngineState :=
  { freshState 0 with blacklistCache := fun s => s == "A" }

/-- Witness for C8 at a concrete input: the banned identity is denied, its
violation count stays zero, and the only new security event is the
blacklist-block record. -/
theorem blacklist_deny_no_violation_witness :
    (checkDDoSProtection noFaults "A" "/create" defaultDDoSConfig 1000 stC8).1.allowed
      = false ∧
    (checkDDoSProtection noFaults "A" "/create" defaultDDoSConfig 1000 stC8).2.violationCache "A"
      = 0 ∧
    (checkDDoSProtection noFaults "A" "/create" defaultDDoSConfig 1000 stC8).2.store.security_events
      = [{ client_id := "A", event_type := "blacklist_block", details := some "/create" }] := by
  have h := blacklist_deny_no_violation "A" "/create" defaultDDoSConfig 1000 stC8
    (by decide) (by decide)
  refine ⟨h.2.1, ?_, ?_⟩
  · rw [h.2.2.1]
    decide
  · rw [h.2.2.2.1]
    decide

/-- C9 (amended): `unblacklistIP` never errors; it deletes every durable
blacklist row of the identity, forces its cache entry to false, resets its
violation count to zero, appends one unblacklist security event, and leaves
the burst cache untouched; on a never-banned identity the durable blacklist
rows and the cache are left exactly as they were, while the violation count
is still cleared and the event still appended. -/
theorem unblacklistIP_behavior (clientId : String) (st : EngineState) :
    unblacklistIP noFaults clientId st =
      .ok { st with
        store := { st.store with
          ip_blacklist := st.store.ip_blacklist.filter
            (fun r => !(r.client_id == clientId)),
          security_events := st.store.security_events ++
            [{ client_id := clientId, event_type := "ip_unblacklisted",
               details := some "Manual unblock" }] },
        blacklistCache := fun s => if s == clientId then false else st.blacklistCache s,
        violationCache := fun s => if s == clientId then 0 else st.violationCache s } ∧
    ((∀ r ∈ st.store.ip_blacklist, r.client_id ≠ clientId) →
      st.store.ip_blacklist.filter (fun r => !(r.client_id == clientId))
        = st.store.ip_blacklist) ∧
    (st.blacklistCache clientId = false →
      ∀ s, (if s == clientId then false else st.blacklistCache s)
        = st.blacklistCache s) := by
  refine ⟨?_, ?_, ?_⟩
  · unfold unblacklistIP
    dsimp only
    rw [if_neg (by simp [noFaults]), logSecurityEvent_noFaults]
  · intro hne
    rw [List.filter_eq_self]
    intro r hr
    simpa using hne r hr
  · intro h0 s
    by_cases hs : s = clientId
    · subst hs
      simp [h0]
    · simp [hs]

/-- Concrete state for C9: identity A was never banned but has three
recorded violations. -/
def stC9 : EngineState :=
  { freshState 0 with violationCache := fun s => if s == "A" then 3 else 0 }

/-- C9 counterexample: on the never-banned identity A with three running
violations, unban is not a no-op for A — it resets the violation count to
zero and appends a security event. -/
theorem unblacklistIP_not_noop_cex :
    stC9.store.ip_blacklist = [] ∧ stC9.blacklistCache "A" = false ∧
    stC9.violationCache "A" = 3 ∧
    (unExcept (unblacklistIP noFaults "A" stC9)).violationCache "A" = 0 ∧
    (unExcept (unblacklistIP noFaults "A" stC9)).store.security_events.length
      = stC9.store.security_events.length + 1 := by
  decide

/-- Witness for C9 at a concrete input: on the never-banned identity A the
durable delete and the cache removal are both no-ops. -/
theorem unblacklistIP_behavior_witness :
    stC9.store.ip_blacklist.filter (fun r => !(r.client_id == "A"))
      = stC9.store.ip_blacklist ∧
    ∀ s, (if s == "A" then false else stC9.blacklistCache s) = stC9.blacklistCache s :=
  ⟨(unblacklistIP_behavior "A" stC9).2.1 (by decide),
   (unblacklistIP_behavior "A" stC9).2.2 (by decide)⟩

/-- Concrete state for C7: identity A has five running violations. -/
def stC7 : EngineState :=
  { freshState 0 with violationCache := fun s => if s == "A" then 5 else 0 }

/-- C7 counterexample: the maintenance sweep is not a no-op on the running
violation counts — it resets A's count from five to zero, so the count is
not monotonically non-decreasing under the engine's operations. -/
theorem cleanup_resets_violations_cex :
    stC7.violationCache "A" = 5 ∧
    (cleanupCache 1000 stC7).violationCache "A" = 0 := by
  decide

/-- C7 (amended): the running violation count is reset by exactly two
operations — the cleanup sweep zeroes every identity's count, and unban
zeroes the target identity's count — and otherwise never decreases: an
admit() call that does not trigger the sweep leaves every count at or
above its previous value, under any fault model. -/
theorem violation_counter_reset_behavior (clientId target endpoint : String)
    (config : DDoSConfig) (fm : FaultModel) (now : Int) (st st1 : EngineState) :
    (cleanupCache now st).violationCache clientId = 0 ∧
    (unblacklistIP noFaults target st = .ok st1 →
      st1.violationCache target = 0 ∧
      (clientId ≠ target → st1.violationCache clientId = st.violationCache clientId)) ∧
    (now - st.lastCleanup ≤ 5 * 60 * 1000 →
      ∀ s, st.violationCache s ≤
        (checkDDoSProtection fm clientId endpoint config now st).2.violationCache s) := by
  refine ⟨rfl, ?_, ?_⟩
  · intro h
    unfold unblacklistIP at h
    rw [if_neg (by simp [noFaults])] at h
    dsimp only at h
    injection h with h1
    rw [← h1]
    refine ⟨by simp, fun hne => ?_⟩
    have : (clientId == target) = false := beq_eq_false_iff_ne.mpr hne
    simp [this]
  · intro hclean s
    unfold checkDDoSProtection checkDDoSBody
    rw [runCleanup_not_due now st hclean]
    dsimp only
    rcases hblr : checkBlacklist fm clientId now st with ⟨bl, stb⟩
    have hfrb := checkBlacklist_frame fm clientId now st
    rw [hblr] at hfrb
    dsimp only at hfrb ⊢
    by_cases hb : bl.isBlacklisted = some true
    · rw [if_pos hb]
      dsimp only
      rw [hfrb.2.1]
    · rw [if_neg hb]
      rcases hbr : checkBurstPattern clientId config now stb with ⟨br, st2⟩
      have hfr2 := checkBurstPattern_frame clientId config now stb
      rw [hbr] at hfr2
      dsimp only at hfr2 ⊢
      have hvc2 : st2.violationCache = st.violationCache := by
        rw [hfr2.2.1, hfrb.2.1]
      cases hba : br.allowed with
      | false =>
        simp only [Bool.not_false, reduceIte]
        cases hrv : recordViolation fm clientId "burst_detected" now st2 with
        | error stE =>
          dsimp only
          have := (recordViolation_frame fm clientId "burst_detected" now st2 stE
            (Or.inr hrv)).2.2.2.1 s
          rw [hvc2] at this
          exact this
        | ok stO =>
          dsimp only
          have := (recordViolation_frame fm clientId "burst_detected" now st2 stO
            (Or.inl hrv)).2.2.2.1 s
          rw [hvc2] at this
          exact this
      | true =>
        simp only [Bool.not_true, Bool.false_eq_true, if_false]
        cases hrl : checkRateLimits fm clientId endpoint config now st2.store with
        | error e =>
          dsimp only
          rw [hvc2]
        | ok rl =>
          dsimp only
          cases hrla : rl.allowed with
          | false =>
            simp only [Bool.not_false, reduceIte]
            cases hrv : recordViolation fm clientId "rate_limit_exceeded" now st2 with
            | error stE =>
              dsimp only
              have := (recordViolation_frame fm clientId "rate_limit_exceeded" now st2 stE
                (Or.inr hrv)).2.2.2.1 s
              rw [hvc2] at this
              exact this
            | ok stO =>
              dsimp only
              have := (recordViolation_frame fm clientId "rate_limit_exceeded" now st2 stO
                (Or.inl hrv)).2.2.2.1 s
              rw [hvc2] at this
              exact this
          | true =>
            simp only [Bool.not_true, Bool.false_eq_true, if_false]
            cases hip : checkIPLimits fm clientId config now st2.store with
            | error e =>
              dsimp only
              rw [hvc2]
            | ok ip =>
              dsimp only
              cases hipa : ip.allowed with
              | false =>
                simp only [Bool.not_false, reduceIte]
                cases hrv : recordViolation fm clientId "ip_limit_exceeded" now st2 with
                | error stE =>
                  dsimp only
                  have := (recordViolation_frame fm clientId "ip_limit_exceeded" now st2 stE
                    (Or.inr hrv)).2.2.2.1 s
                  rw [hvc2] at this
                  exact this
                | ok stO =>
                  dsimp only
                  have := (recordViolation_frame fm clientId "ip_limit_exceeded" now st2 stO
                    (Or.inl hrv)).2.2.2.1 s
                  rw [hvc2] at this
                  exact this
              | true =>
                simp only [Bool.not_true, Bool.false_eq_true, if_false]
                rw [hvc2]

/-- Witness for C7 at a concrete input: an admit() call without a sweep
does not lower A's running count of five. -/
theorem violation_counter_reset_behavior_witness :
    stC7.violationCache "A" ≤
      (checkDDoSProtection noFaults "A" "/create" defaultDDoSConfig 1000 stC7).2.violationCache "A" :=
  (violation_counter_reset_behavior "A" "B" "/create" defaultDDoSConfig noFaults 1000
    stC7 stC7).2.2 (by decide) "A"

/-- Ledger with one admitted request from identity B on the protected
endpoint, 1 s before the probe time (inside every window). -/
def dbC2 : DurableStore :=
  ⟨[{ ip_address := "B", endpoint := "/create", timestamp := 999000 }], [], []⟩

/-- Configuration with a global per-minute threshold of one. -/
def cfgC2 : DDoSConfig := { defaultDDoSConfig with maxRequestsPerMinute := 1 }

/-- C2 counterexample: the ledger already holds one admitted request on the
endpoint from all identities combined, meeting the per-minute threshold,
so the claim predicts a rate-limit-minute deny for identity A — but the
source's query counts only rows with A's own ip_address and the check
allows. -/
theorem rateLimits_not_global_cex :
    cfgC2.maxRequestsPerMinute
      ≤ specGlobalCountSince dbC2 "/create" (1000000 - 60 * 1000) ∧
    checkRateLimits noFaults "A" "/create" cfgC2 1000000 dbC2
      = .ok { allowed := true, remainingRequests := some 1,
              resetTime := some 1060000 } := by
  constructor
  · decide
  · rfl

/-- C2 (amended): each of the three window checks of `checkRateLimits`
compares its threshold against the count of the requesting identity's own
ledger rows (`ip_address = clientId`) in the trailing window, with the
endpoint parameter ignored entirely, and denies with the corresponding
rate-limit reason when that count is at or above the threshold; minute,
hour and day are checked in order and the first breach wins. -/
theorem checkRateLimits_per_identity (clientId e1 e2 : String)
    (config : DDoSConfig) (now : Int) (db : DurableStore)
    (cm ch cd : Nat)
    (hm : cm = countLogsSince db clientId (now - 60 * 1000))
    (hh : ch = countLogsSince db clientId (now - 60 * 60 * 1000))
    (hd : cd = countLogsSince db clientId (now - 24 * 60 * 60 * 1000)) :
    checkRateLimits noFaults clientId e1 config now db
      = checkRateLimits noFaults clientId e2 config now db ∧
    (config.maxRequestsPerMinute ≤ cm →
      checkRateLimits noFaults clientId e1 config now db
        = .ok { allowed := false,
                reason := some (rateMinuteMsg cm config.maxRequestsPerMinute),
                remainingRequests := some 0,
                resetTime := some (now + 60 * 1000) }) ∧
    (cm < config.maxRequestsPerMinute → config.maxRequestsPerHour ≤ ch →
      checkRateLimits noFaults clientId e1 config now db
        = .ok { allowed := false,
                reason := some (rateHourMsg ch config.maxRequestsPerHour),
                remainingRequests := some 0,
                resetTime := some (now + 60 * 60 * 1000) }) ∧
    (cm < config.maxRequestsPerMinute → ch < config.maxRequestsPerHour →
      config.maxRequestsPerDay ≤ cd →
      checkRateLimits noFaults clientId e1 config now db
        = .ok { allowed := false,
                reason := some (rateDayMsg cd config.maxRequestsPerDay),
                remainingRequests := some 0,
                resetTime := some (now + 24 * 60 * 60 * 1000) }) ∧
    (cm < config.maxRequestsPerMinute → ch < config.maxRequestsPerHour →
      cd < config.maxRequestsPerDay →
      checkRateLimits noFaults clientId e1 config now db
        = .ok { allowed := true,
                remainingRequests := some (config.maxRequestsPerMinute - cm),
                resetTime := some (now + 60 * 1000) }) := by
  subst hm hh hd
  refine ⟨by unfold checkRateLimits; rfl, ?_, ?_, ?_, ?_⟩ <;>
    unfold checkRateLimits noFaults <;> dsimp only <;>
    simp only [Bool.false_eq_true, if_false]
  · intro h1
    rw [if_pos h1]
  · intro h1 h2
    rw [if_neg (by omega), if_pos h2]
  · intro h1 h2 h3
    rw [if_neg (by omega), if_neg (by omega), if_pos h3]
  · intro h1 h2 h3
    rw [if_neg (by omega), if_neg (by omega), if_neg (by omega)]

/-- Witness for C2 at a concrete input: for identity B, the one B row in
the window meets the threshold and the check denies with the per-minute
reason. -/
theorem checkRateLimits_per_identity_witness :
    checkRateLimits noFaults "B" "/create" cfgC2 1000000 dbC2
      = .ok { allowed := false, reason := some (rateMinuteMsg 1 1),
              remainingRequests := some 0, resetTime := some 1060000 } := by
  have h := (checkRateLimits_per_identity "B" "/create" "/other" cfgC2 1000000 dbC2
    1 1 1 (by decide) (by decide) (by decide)).2.1 (by decide)
  rw [h]
  rfl

/-- Per-decision configuration for C3: auto-blacklist after one violation,
five-millisecond ban. -/
def cfgC3 : DDoSConfig :=
  { defaultDDoSConfig with autoBlacklistThreshold := 1, blacklistDuration := 5 }

/-- State for C3: identity A has a 10 ms old cached timestamp, so a call at
time 1000 is a burst (interval) violation; no violations recorded yet. -/
def stC3 : EngineState :=
  { freshState 0 with requestCache := fun s => if s == "A" then [990] else [] }

/-- C3 counterexample: with the per-decision configuration demanding a ban
at one violation, A's first violation reaches that threshold, yet no
blacklist entry is created — the source hardcodes `defaultDDoSConfig`'s
threshold of fifty inside `recordViolation`. -/
theorem recordViolation_ignores_config_cex :
    cfgC3.autoBlacklistThreshold = 1 ∧
    (checkDDoSProtection noFaults "A" "/create" cfgC3 1000 stC3).1.allowed = false ∧
    (checkDDoSProtection noFaults "A" "/create" cfgC3 1000 stC3).2.violationCache "A" = 1 ∧
    (checkDDoSProtection noFaults "A" "/create" cfgC3 1000 stC3).2.store.ip_blacklist = [] := by
  decide

/-- C3 (amended): recording a violation bumps the identity's running count
by one and escalates against `defaultDDoSConfig` regardless of the
configuration of the admission decision: exactly when the new count reaches
`defaultDDoSConfig.autoBlacklistThreshold`, a blacklist entry is appended
whose expiry is the current time plus `defaultDDoSConfig.blacklistDuration`,
and below that count the blacklist is untouched. -/
theorem recordViolation_default_escalation (clientId vt : String) (now : Int)
    (st st1 : EngineState) (c : Nat)
    (hc : c = st.violationCache clientId + 1)
    (h : recordViolation noFaults clientId vt now st = .ok st1) :
    st1.violationCache clientId = c ∧
    (defaultDDoSConfig.autoBlacklistThreshold ≤ c →
      st1.store.ip_blacklist = st.store.ip_blacklist ++
        [{ client_id := clientId, reason := autoBanMsg c,
           expires_at := now + defaultDDoSConfig.blacklistDuration }] ∧
      st1.blacklistCache clientId = true) ∧
    (c < defaultDDoSConfig.autoBlacklistThreshold →
      st1.store.ip_blacklist = st.store.ip_blacklist ∧
      st1.blacklistCache = st.blacklistCache) := by
  subst hc
  unfold recordViolation blacklistIP at h
  rw [if_neg (by simp [noFaults])] at h
  dsimp only at h
  by_cases hth : defaultDDoSConfig.autoBlacklistThreshold ≤ st.violationCache clientId + 1
  · rw [if_pos hth, if_neg (by simp [noFaults]), logSecurityEvent_noFaults] at h
    injection h with h1
    rw [← h1]
    refine ⟨by simp, fun _ => ⟨rfl, by simp⟩, fun hlt => absurd hth (by omega)⟩
  · rw [if_neg hth] at h
    injection h with h1
    rw [← h1]
    exact ⟨by simp, fun hge => absurd hge hth, fun _ => ⟨rfl, rfl⟩⟩

/-- State for the C3 witness: identity A already has forty-nine running
violations, one short of the default threshold. -/
def stC3w : EngineState :=
  { freshState 0 with violationCache := fun s => if s == "A" then 49 else 0 }

/-- Witness for C3 at a concrete input: the fiftieth violation reaches the
default threshold and appends a 24-hour blacklist entry. -/
theorem recordViolation_default_escalation_witness :
    (unExcept (recordViolation noFaults "A" "burst_detected" 1000 stC3w)).violationCache "A"
      = 50 ∧
    (unExcept (recordViolation noFaults "A" "burst_detected" 1000 stC3w)).store.ip_blacklist
      = [{ client_id := "A", reason := autoBanMsg 50,
           expires_at := 1000 + defaultDDoSConfig.blacklistDuration }] := by
  have h := recordViolation_default_escalation "A" "burst_detected" 1000 stC3w
    (unExcept (recordViolation noFaults "A" "burst_detected" 1000 stC3w)) 50
    (by decide) rfl
  exact ⟨h.1, ((h.2.1 (by decide)).1).trans (by decide)⟩

/-- Fault model for C4: the per-minute ledger count query throws. -/
def fmC4 : FaultModel := { noFaults with minuteCountFails := true }

/-- C4 counterexample: when the ledger count query of the window check
throws, the whole admit() call fail-opens to ALLOW, but no
fault event of any kind is written to the security event sink (and the
request is not appended to the ledger either) — the source only writes to
the console. -/
theorem failOpen_no_event_cex :
    (checkDDoSProtection fmC4 "A" "/create" defaultDDoSConfig 1000 (freshState 0)).1
      = { allowed := true } ∧
    (checkDDoSProtection fmC4 "A" "/create" defaultDDoSConfig 1000 (freshState 0)).2.store.security_events
      = [] ∧
    (checkDDoSProtection fmC4 "A" "/create" defaultDDoSConfig 1000 (freshState 0)).2.store.request_logs
      = [] := by
  decide

/-- C4 (amended): when a ledger count query made by the rate-limit or
IP-limit check throws, the failure never propagates to the caller: the
entire admit() call returns plain ALLOW, skipping the remaining checks,
and neither appends to the ledger nor writes any event to the security
sink — the only fail-open logging is to the console. -/
theorem failOpen_whole_request (fm : FaultModel) (clientId endpoint : String)
    (config : DDoSConfig) (now : Int) (st : EngineState)
    (hclean : now - st.lastCleanup ≤ 5 * 60 * 1000)
    (hnb : (checkBlacklist fm clientId now st).1.isBlacklisted ≠ some true)
    (hal : (checkBurstPattern clientId config now st).1.allowed = true)
    (hfail : checkRateLimits fm clientId endpoint config now
        (checkBurstPattern clientId config now st).2.store = .error () ∨
      (∃ rl, checkRateLimits fm clientId endpoint config now
          (checkBurstPattern clientId config now st).2.store = .ok rl ∧
        rl.allowed = true ∧
        checkIPLimits fm clientId config now
          (checkBurstPattern clientId config now st).2.store = .error ())) :
    (checkDDoSProtection fm clientId endpoint config now st).1 = { allowed := true } ∧
    (checkDDoSProtection fm clientId endpoint config now st).2.store.security_events
      = st.store.security_events ∧
    (checkDDoSProtection fm clientId endpoint config now st).2.store.request_logs
      = st.store.request_logs := by
  have hbl := checkBlacklist_not_banned fm clientId now st hnb
  have hst2 := checkBurstPattern_frame clientId config now st
  unfold checkDDoSProtection checkDDoSBody
  rw [runCleanup_not_due now st hclean]
  dsimp only
  rw [hbl]
  dsimp only
  rw [if_neg (by simp)]
  rcases hbr : checkBurstPattern clientId config now st with ⟨br, st2⟩
  rw [hbr] at hst2 hal hfail
  dsimp only at hst2 hal hfail ⊢
  simp only [hal, Bool.not_true, Bool.false_eq_true, if_false]
  rcases hfail with hfail | ⟨rl, hrl, hrla, hip⟩
  · rw [hfail]
    dsimp only
    exact ⟨rfl, by rw [hst2.2.2.1], by rw [hst2.2.2.1]⟩
  · rw [hrl]
    dsimp only
    simp only [hrla, Bool.not_true, Bool.false_eq_true, if_false]
    rw [hip]
    dsimp only
    exact ⟨rfl, by rw [hst2.2.2.1], by rw [hst2.2.2.1]⟩

/-- Witness for C4 at a concrete input: with a failing per-minute count
query, the admit() call for a clean identity returns ALLOW and writes no
security event. -/
theorem failOpen_whole_request_witness :
    (checkDDoSProtection fmC4 "B" "/create" defaultDDoSConfig 2000 (freshState 0)).1
      = { allowed := true } ∧
    (checkDDoSProtection fmC4 "B" "/create" defaultDDoSConfig 2000 (freshState 0)).2.store.security_events
      = (freshState 0).store.security_events :=
  ⟨(failOpen_whole_request fmC4 "B" "/create" defaultDDoSConfig 2000 (freshState 0)
      (by decide) (by decide) (by decide) (Or.inl rfl)).1,
   (failOpen_whole_request fmC4 "B" "/create" defaultDDoSConfig 2000 (freshState 0)
      (by decide) (by decide) (by decide) (Or.inl rfl)).2.1⟩

theorem runCleanup_store (now : Int) (st : EngineState) :
    (runCleanup now st).store = st.store := by
  unfold runCleanup cleanupCache
  split <;> rfl

/-- C1: admit() evaluates the blacklist check, then the burst check, then
the minute/hour/day window checks, then the per-identity limits, in that
fixed order; the first denying check's result is returned and the later
checks are short-circuited, and the request is appended to the request
ledger exactly when every check passes. -/
theorem checkDDoSProtection_check_order (clientId endpoint : String)
    (config : DDoSConfig) (now : Int) (st stc : EngineState)
    (hstc : stc = runCleanup now st)
    (bl : DDoSCheckResult) (stb : EngineState)
    (hbl : checkBlacklist noFaults clientId now stc = (bl, stb))
    (bu : DDoSCheckResult) (st2 : EngineState)
    (hbu : checkBurstPattern clientId config now stc = (bu, st2)) :
    (bl.isBlacklisted = some true →
      (checkDDoSProtection noFaults clientId endpoint config now st).1 = bl ∧
      (checkDDoSProtection noFaults clientId endpoint config now st).2.store.request_logs
        = st.store.request_logs ∧
      (checkDDoSProtection noFaults clientId endpoint config now st).2.requestCache
        = stc.requestCache ∧
      (checkDDoSProtection noFaults clientId endpoint config now st).2.violationCache
        = stc.violationCache) ∧
    (bl.isBlacklisted ≠ some true → bu.allowed = false →
      (checkDDoSProtection noFaults clientId endpoint config now st).1 = bu ∧
      (checkDDoSProtection noFaults clientId endpoint config now st).2.store.request_logs
        = st.store.request_logs) ∧
    (bl.isBlacklisted ≠ some true → bu.allowed = true →
      ∀ rl, checkRateLimits noFaults clientId endpoint config now st2.store = .ok rl →
        (rl.allowed = false →
          (checkDDoSProtection noFaults clientId endpoint config now st).1 = rl ∧
          (checkDDoSProtection noFaults clientId endpoint config now st).2.store.request_logs
            = st.store.request_logs) ∧
        (rl.allowed = true →
          ∀ ip, checkIPLimits noFaults clientId config now st2.store = .ok ip →
            (ip.allowed = false →
              (checkDDoSProtection noFaults clientId endpoint config now st).1 = ip ∧
              (checkDDoSProtection noFaults clientId endpoint config now st).2.store.request_logs
                = st.store.request_logs) ∧
            (ip.allowed = true →
              (checkDDoSProtection noFaults clientId endpoint config now st).1
                = { allowed := true,
                    remainingRequests := rl.remainingRequests,
                    resetTime := rl.resetTime } ∧
              (checkDDoSProtection noFaults clientId endpoint config now st).2.store.request_logs
                = st.store.request_logs ++
                  [{ ip_address := clientId, endpoint := endpoint, timestamp := now }]))) := by
  have hlogs : stc.store.request_logs = st.store.request_logs := by
    rw [hstc, runCleanup_store]
  have hfrb := checkBlacklist_frame noFaults clientId now stc
  rw [hbl] at hfrb
  have hfr2 := checkBurstPattern_frame clientId config now stc
  rw [hbu] at hfr2
  dsimp only at hfrb hfr2
  unfold checkDDoSProtection checkDDoSBody
  rw [← hstc]
  dsimp only
  rw [hbl]
  dsimp only
  by_cases hb : bl.isBlacklisted = some true
  · rw [if_pos hb]
    dsimp only
    refine ⟨fun _ => ⟨rfl, ?_, hfrb.1, hfrb.2.1⟩,
      fun hnb _ => absurd hb hnb, fun hnb _ => absurd hb hnb⟩
    rw [(logSecurityEvent_frame noFaults "blacklist_block" clientId endpoint stb.store).1,
      hfrb.2.2.1, hlogs]
  · rw [if_neg hb]
    have hbst : stb = stc := by
      have := checkBlacklist_not_banned noFaults clientId now stc (by rw [hbl]; exact hb)
      rw [hbl] at this
      injection this with e1 e2
    subst hbst
    rw [hbu]
    dsimp only
    refine ⟨fun hbt => absurd hbt hb, fun _ hbf => ?_, fun _ hbt => ?_⟩
    · simp only [hbf, Bool.not_false, reduceIte]
      cases hrv : recordViolation noFaults clientId "burst_detected" now st2 with
      | error stE => exact absurd hrv (recordViolation_noFaults_not_error _ _ _ _ _)
      | ok stO =>
        dsimp only
        refine ⟨rfl, ?_⟩
        rw [(recordViolation_frame noFaults clientId "burst_detected" now st2 stO
          (Or.inl hrv)).2.1, hfr2.2.2.1, hlogs]
    · simp only [hbt, Bool.not_true, Bool.false_eq_true, if_false]
      intro rl hrl
      rw [hrl]
      dsimp only
      constructor
      · intro hrla
        simp only [hrla, Bool.not_false, reduceIte]
        cases hrv : recordViolation noFaults clientId "rate_limit_exceeded" now st2 with
        | error stE => exact absurd hrv (recordViolation_noFaults_not_error _ _ _ _ _)
        | ok stO =>
          dsimp only
          refine ⟨rfl, ?_⟩
          rw [(recordViolation_frame noFaults clientId "rate_limit_exceeded" now st2 stO
            (Or.inl hrv)).2.1, hfr2.2.2.1, hlogs]
      · intro hrla ip hip
        simp only [hrla, Bool.not_true, Bool.false_eq_true, if_false]
        rw [hip]
        dsimp only
        constructor
        · intro hipa
          simp only [hipa, Bool.not_false, reduceIte]
          cases hrv : recordViolation noFaults clientId "ip_limit_exceeded" now st2 with
          | error stE => exact absurd hrv (recordViolation_noFaults_not_error _ _ _ _ _)
          | ok stO =>
            dsimp only
            refine ⟨rfl, ?_⟩
            rw [(recordViolation_frame noFaults clientId "ip_limit_exceeded" now st2 stO
              (Or.inl hrv)).2.1, hfr2.2.2.1, hlogs]
        · intro hipa
          simp only [hipa, Bool.not_true, Bool.false_eq_true, if_false]
          refine ⟨?_, ?_⟩
          · trivial
          unfold logRequest
          rw [if_neg (by simp [noFaults])]
          dsimp only
          rw [hfr2.2.2.1, hlogs]

/-- Burst-check output state for the C1 witness: identity A's timestamp
list holds the admitted call time. -/
def stC1w : EngineState :=
  { freshState 0 with requestCache := fun s => if s == "A" then [1000] else [] }

/-- Witness for C1 at a concrete input: from a fresh state every check
passes and exactly one ledger row is appended. -/
theorem checkDDoSProtection_check_order_witness :
    (checkDDoSProtection noFaults "A" "/create" defaultDDoSConfig 1000 (freshState 0)).1
      = { allowed := true, remainingRequests := some 60, resetTime := some 61000 } ∧
    (checkDDoSProtection noFaults "A" "/create" defaultDDoSConfig 1000 (freshState 0)).2.store.request_logs
      = [{ ip_address := "A", endpoint := "/create", timestamp := 1000 }] := by
  have h := ((checkDDoSProtection_check_order "A" "/create" defaultDDoSConfig 1000
      (freshState 0) (freshState 0) rfl
      { allowed := true } (freshState 0) rfl
      { allowed := true } stC1w rfl).2.2 (by decide) rfl
      { allowed := true, remainingRequests := some 60, resetTime := some 61000 } rfl).2 rfl
      { allowed := true } rfl
  have h2 := h.2 rfl
  exact ⟨h2.1, h2.2.trans (by decide)⟩

theorem runCleanup_blacklistCache (now : Int) (st : EngineState) :
    (runCleanup now st).blacklistCache = st.blacklistCache := by
  unfold runCleanup cleanupCache
  split <;> rfl

theorem sublist_filter_of_all (pre l : List Int) (p : Int → Bool)
    (hall : ∀ x ∈ pre, p x = true) (h : pre.Sublist l) :
    pre.Sublist (l.filter p) := by
  have h2 := List.Sublist.filter p h
  rwa [List.filter_eq_self.mpr hall] at h2

theorem runCleanup_requestCache_sublist (now : Int) (st : EngineState)
    (clientId : String) (pre : List Int)
    (hb : ∀ x ∈ pre, now - x < 1000)
    (h : pre.Sublist (st.requestCache clientId)) :
    pre.Sublist ((runCleanup now st).requestCache clientId) := by
  unfold runCleanup cleanupCache
  split
  · dsimp only
    refine sublist_filter_of_all pre _ _ (fun x hx => ?_) h
    have := hb x hx
    simp only [decide_eq_true_eq]
    omega
  · exact h

theorem checkBlacklist_clean (fm : FaultModel) (clientId : String) (now : Int)
    (st : EngineState)
    (h1 : st.blacklistCache clientId = false)
    (h2 : st.store.ip_blacklist = []) :
    checkBlacklist fm clientId now st = ({ allowed := true }, st) := by
  unfold checkBlacklist findBlacklistRow
  rw [h1, h2]
  cases hq : fm.blacklistQueryFails <;> simp

theorem checkBurstPattern_count_deny (clientId : String) (config : DDoSConfig)
    (now : Int) (st : EngineState)
    (h : config.maxBurstRequests
        ≤ ((st.requestCache clientId).filter (fun t => now - t < 1000)).length) :
    checkBurstPattern clientId config now st
      = ({ allowed := false,
           reason := some (burstCountMsg
             ((st.requestCache clientId).filter (fun t => now - t < 1000)).length) },
         st) := by
  unfold checkBurstPattern
  dsimp only
  rw [if_pos h]

theorem admit_step_invariant (clientId endpoint : String) (config : DDoSConfig)
    (t : Int) (st : EngineState) (pre : List Int)
    (hsub : pre.Sublist (st.requestCache clientId))
    (hb : ∀ x ∈ pre, t - x < 1000) :
    pre.Sublist
      ((checkDDoSProtection noFaults clientId endpoint config t st).2.requestCache clientId) ∧
    ((checkDDoSProtection noFaults clientId endpoint config t st).1.allowed = true →
      (pre ++ [t]).Sublist
        ((checkDDoSProtection noFaults clientId endpoint config t st).2.requestCache clientId) ∧
      (checkDDoSProtection noFaults clientId endpoint config t st).2.blacklistCache
        = st.blacklistCache ∧
      (checkDDoSProtection noFaults clientId endpoint config t st).2.store.ip_blacklist
        = st.store.ip_blacklist) := by
  have hsubc : pre.Sublist ((runCleanup t st).requestCache clientId) :=
    runCleanup_requestCache_sublist t st clientId pre hb hsub
  unfold checkDDoSProtection checkDDoSBody
  dsimp only
  rcases hblr : checkBlacklist noFaults clientId t (runCleanup t st) with ⟨bl, stb⟩
  have hfrb := checkBlacklist_frame noFaults clientId t (runCleanup t st)
  rw [hblr] at hfrb
  dsimp only at hfrb ⊢
  by_cases hban : bl.isBlacklisted = some true
  · rw [if_pos hban]
    dsimp only
    have hballow := checkBlacklist_banned_allowed noFaults clientId t (runCleanup t st)
      (by rw [hblr]; exact hban)
    rw [hblr] at hballow
    refine ⟨by rw [hfrb.1]; exact hsubc, fun hcon => ?_⟩
    have h1 : bl.allowed = true := hcon
    have h2 : bl.allowed = false := hballow
    rw [h1] at h2
    exact absurd h2 (by simp)
  · rw [if_neg hban]
    have hbeq : stb = runCleanup t st := by
      have hnb := checkBlacklist_not_banned noFaults clientId t (runCleanup t st)
        (by rw [hblr]; exact hban)
      rw [hblr] at hnb
      injection hnb with e1 e2
    subst hbeq
    rcases hbr : checkBurstPattern clientId config t (runCleanup t st) with ⟨br, st2⟩
    have hfr2 := checkBurstPattern_frame clientId config t (runCleanup t st)
    rw [hbr] at hfr2
    dsimp only at hfr2 ⊢
    cases hba : br.allowed with
    | false =>
      simp only [Bool.not_false, reduceIte]
      have hst2 : st2 = runCleanup t st :=
        checkBurstPattern_deny_state _ _ _ _ _ _ hbr hba
      cases hrv : recordViolation noFaults clientId "burst_detected" t st2 with
      | error stE => exact absurd hrv (recordViolation_noFaults_not_error _ _ _ _ _)
      | ok stO =>
        dsimp only
        have hrvf := (recordViolation_frame noFaults clientId "burst_detected" t st2 stO
          (Or.inl hrv)).1
        refine ⟨by rw [hrvf, hst2]; exact hsubc, fun hcon => ?_⟩
        have h1 : br.allowed = true := hcon
        rw [hba] at h1
        exact absurd h1 (by simp)
    | true =>
      simp only [Bool.not_true, Bool.false_eq_true, if_false]
      have hcache := checkBurstPattern_allow_cache clientId config t (runCleanup t st)
        br st2 hbr hba
      have hp1 : pre.Sublist (((runCleanup t st).requestCache clientId).filter
          (fun x => t - x < 1000)) := by
        refine sublist_filter_of_all pre _ _ (fun x hx => ?_) hsubc
        simp only [decide_eq_true_eq]
        exact hb x hx
      have hp2 : (pre ++ [t]).Sublist (st2.requestCache clientId) := by
        rw [hcache]
        exact hp1.append (List.Sublist.refl _)
      have hp3 : pre.Sublist (st2.requestCache clientId) := by
        rw [hcache]
        exact hp1.trans (List.sublist_append_left _ _)
      cases hrl : checkRateLimits noFaults clientId endpoint config t st2.store with
      | error e =>
        cases e
        exact absurd hrl (checkRateLimits_noFaults_not_error _ _ _ _ _)
      | ok rl =>
        dsimp only
        cases hrla : rl.allowed with
        | false =>
          simp only [Bool.not_false, reduceIte]
          cases hrv : recordViolation noFaults clientId "rate_limit_exceeded" t st2 with
          | error stE => exact absurd hrv (recordViolation_noFaults_not_error _ _ _ _ _)
          | ok stO =>
            dsimp only
            have hrvf := (recordViolation_frame noFaults clientId "rate_limit_exceeded" t st2 stO
              (Or.inl hrv)).1
            refine ⟨by rw [hrvf]; exact hp3, fun hcon => ?_⟩
            have h1 : rl.allowed = true := hcon
            rw [hrla] at h1
            exact absurd h1 (by simp)
        | true =>
          simp only [Bool.not_true, Bool.false_eq_true, if_false]
          cases hip : checkIPLimits noFaults clientId config t st2.store with
          | error e =>
            cases e
            exact absurd hip (checkIPLimits_noFaults_not_error _ _ _ _)
          | ok ip =>
            dsimp only
            cases hipa : ip.allowed with
            | false =>
              simp only [Bool.not_false, reduceIte]
              cases hrv : recordViolation noFaults clientId "ip_limit_exceeded" t st2 with
              | error stE => exact absurd hrv (recordViolation_noFaults_not_error _ _ _ _ _)
              | ok stO =>
                dsimp only
                have hrvf := (recordViolation_frame noFaults clientId "ip_limit_exceeded" t st2 stO
                  (Or.inl hrv)).1
                refine ⟨by rw [hrvf]; exact hp3, fun hcon => ?_⟩
                have h1 : ip.allowed = true := hcon
                rw [hipa] at h1
                exact absurd h1 (by simp)
            | true =>
              simp only [Bool.not_true, Bool.false_eq_true, if_false]
              refine ⟨hp3, fun _ => ⟨hp2, ?_, ?_⟩⟩
              · rw [hfr2.1, runCleanup_blacklistCache]
              · rw [(logRequest_frame noFaults clientId endpoint t st2.store).1,
                  hfr2.2.2.1, runCleanup_store]

theorem runAdmit_allowed_invariant (clientId endpoint : String) (config : DDoSConfig)
    (T : Int) (ts : List Int) :
    ∀ (st : EngineState) (pre : List Int),
      (∀ t ∈ ts, t ≤ T ∧ T - t < 1000) →
      (∀ x ∈ pre, x ≤ T ∧ T - x < 1000) →
      pre.Sublist (st.requestCache clientId) →
      (∀ b ∈ (runAdmitCalls noFaults clientId endpoint config ts st).1, b = true) →
      (pre ++ ts).Sublist
        ((runAdmitCalls noFaults clientId endpoint config ts st).2.requestCache clientId) ∧
      (runAdmitCalls noFaults clientId endpoint config ts st).2.blacklistCache
        = st.blacklistCache ∧
      (runAdmitCalls noFaults clientId endpoint config ts st).2.store.ip_blacklist
        = st.store.ip_blacklist := by
  induction ts with
  | nil =>
    intro st pre hts hpre hsub hall
    unfold runAdmitCalls
    simpa using hsub
  | cons t ts ih =>
    intro st pre hts hpre hsub hall
    unfold runAdmitCalls at hall ⊢
    dsimp only at hall ⊢
    have hbt := hts t (by simp)
    have hbpre : ∀ x ∈ pre, t - x < 1000 := by
      intro x hx
      have h1 := hpre x hx
      omega
    have hstep := admit_step_invariant clientId endpoint config t st pre hsub hbpre
    have hhead : (checkDDoSProtection noFaults clientId endpoint config t st).1.allowed
        = true := hall _ (List.mem_cons_self _ _)
    have htail : ∀ b ∈ (runAdmitCalls noFaults clientId endpoint config ts
        (checkDDoSProtection noFaults clientId endpoint config t st).2).1, b = true :=
      fun b hb => hall b (List.mem_cons_of_mem _ hb)
    obtain ⟨hgrow, hblk, hip⟩ := hstep.2 hhead
    have hpre2 : ∀ x ∈ pre ++ [t], x ≤ T ∧ T - x < 1000 := by
      intro x hx
      rcases List.mem_append.mp hx with hx | hx
      · exact hpre x hx
      · rw [List.mem_singleton.mp hx]
        exact hbt
    have hts2 : ∀ u ∈ ts, u ≤ T ∧ T - u < 1000 :=
      fun u hu => hts u (List.mem_cons_of_mem _ hu)
    have hres := ih (checkDDoSProtection noFaults clientId endpoint config t st).2
      (pre ++ [t]) hts2 hpre2 hgrow htail
    rw [show pre ++ t :: ts = (pre ++ [t]) ++ ts by simp]
    exact ⟨hres.1, hres.2.1.trans hblk, hres.2.2.trans hip⟩

/-- C6 (amended): for any identity whose first `maxBurstRequests` admit()
calls from a fresh engine state are all allowed and all fall within one
second of the follow-up time `T`, the next admit() call at `T` is denied
by the burst ceiling with the burst reason. -/
theorem burst_ceiling_after_allowed_calls (clientId endpoint : String)
    (config : DDoSConfig) (t0 T : Int) (ts : List Int)
    (hlen : ts.length = config.maxBurstRequests)
    (hbound : ∀ t ∈ ts, t ≤ T ∧ T - t < 1000)
    (hall : ∀ b ∈ (runAdmitCalls noFaults clientId endpoint config ts (freshState t0)).1,
      b = true) :
    ∃ k, config.maxBurstRequests ≤ k ∧
      (checkDDoSProtection noFaults clientId endpoint config T
          (runAdmitCalls noFaults clientId endpoint config ts (freshState t0)).2).1
        = { allowed := false, reason := some (burstCountMsg k) } := by
  have hinv := runAdmit_allowed_invariant clientId endpoint config T ts (freshState t0) []
    hbound (by simp) (List.nil_sublist _) hall
  have hsubF : ts.Sublist
      ((runAdmitCalls noFaults clientId endpoint config ts (freshState t0)).2.requestCache
        clientId) := by
    simpa using hinv.1
  have hblkF := hinv.2.1
  have hipF := hinv.2.2
  set stF := (runAdmitCalls noFaults clientId endpoint config ts (freshState t0)).2 with hstF
  have hsubc : ts.Sublist ((runCleanup T stF).requestCache clientId) :=
    runCleanup_requestCache_sublist T stF clientId ts
      (fun x hx => (hbound x hx).2) hsubF
  unfold checkDDoSProtection checkDDoSBody
  dsimp only
  rw [checkBlacklist_clean noFaults clientId T (runCleanup T stF)
    (by rw [runCleanup_blacklistCache, hblkF]; rfl)
    (by rw [runCleanup_store]; exact hipF)]
  dsimp only
  rw [if_neg (by simp)]
  have hfilter : ts.Sublist (((runCleanup T stF).requestCache clientId).filter
      (fun x => T - x < 1000)) := by
    refine sublist_filter_of_all _ _ _ (fun x hx => ?_) hsubc
    simp only [decide_eq_true_eq]
    exact (hbound x hx).2
  have hk : config.maxBurstRequests
      ≤ (((runCleanup T stF).requestCache clientId).filter
          (fun x => T - x < 1000)).length := by
    rw [← hlen]
    exact hfilter.length_le
  rw [checkBurstPattern_count_deny clientId config T (runCleanup T stF) hk]
  dsimp only
  simp only [Bool.not_false, reduceIte]
  cases hrv : recordViolation noFaults clientId "burst_detected" T (runCleanup T stF) with
  | error stE => exact absurd hrv (recordViolation_noFaults_not_error _ _ _ _ _)
  | ok stO =>
    dsimp only
    exact ⟨_, hk, rfl⟩

/-- C6 counterexample: eleven admit() calls within 100 ms (times 0,10,…,100)
from a fresh state under the default configuration (`maxBurstRequests = 10`,
`minRequestInterval = 100`): the minimum-interval rule denies calls 2–10,
the denied calls do not consume burst capacity, and the eleventh call is
allowed — not denied as the claim requires; the claim's concrete 11-in-500ms
scenario with calls 1–10 allowed cannot occur at all. -/
theorem burst_ceiling_cex :
    (runAdmitCalls noFaults "A" "/create" defaultDDoSConfig
      [0, 10, 20, 30, 40, 50, 60, 70, 80, 90, 100] (freshState 0)).1
      = [true, false, false, false, false, false, false, false, false, false, true] ∧
    defaultDDoSConfig.maxBurstRequests = 10 ∧
    defaultDDoSConfig.minRequestInterval = 100 := by
  decide

/-- Witness for C6 at a concrete input: ten allowed calls at 0,100,…,900
followed by a call at 950 — the eleventh call is denied. -/
theorem burst_ceiling_after_allowed_calls_witness :
    (checkDDoSProtection noFaults "A" "/create" defaultDDoSConfig 950
        (runAdmitCalls noFaults "A" "/create" defaultDDoSConfig
          [0, 100, 200, 300, 400, 500, 600, 700, 800, 900] (freshState 0)).2).1.allowed
      = false := by
  obtain ⟨k, hk, heq⟩ := burst_ceiling_after_allowed_calls "A" "/create"
    defaultDDoSConfig 0 950 [0, 100, 200, 300, 400, 500, 600, 700, 800, 900]
    (by decide) (by decide) (by decide)
  rw [heq]
